import Mathlib

/-!
Verification of the browser-agent core of the anna-monorepo repository.

The Python sources under `servers/agents/src/agents/browser_agent/` are
shallowly embedded as Lean definitions: machine floats are modelled as
exact rationals, Python integers as `Int`, fallible code as `Except`,
and the filesystem / model-inference stages as explicit parameters.
-/

namespace Anna

/-- Python `int(q)` applied to a real number: truncation toward zero. -/
def pyInt (q : ℚ) : ℤ := if q < 0 then ⌈q⌉ else ⌊q⌋

/-- Python exception values that the embedded code can raise. -/
inductive PyError where
  | zeroDivision
  | exn (msg : String)
deriving DecidableEq, Repr

/-- Mirror of the `GridCoords` dataclass (0-100 grid coordinates). -/
structure GridCoords where
  x : ℤ
  y : ℤ
deriving DecidableEq, Repr

/-- Embedding of `ElementDetector._pixel_to_grid`
(`services/element_detector.py`): `grid = int((pixel / viewport_dim) * 100)`
per axis, then clamp to `[0, 100]` via `max(0, min(100, grid))`.
A zero viewport dimension makes `pixel / viewport_dim` raise
`ZeroDivisionError` in Python, modelled as `Except.error .zeroDivision`;
the width division is evaluated first, as in the source. -/
def pixel_to_grid (x y viewport_width viewport_height : ℤ) :
    Except PyError GridCoords :=
  if viewport_width = 0 then .error .zeroDivision
  else if viewport_height = 0 then .error .zeroDivision
  else
    let grid_x := pyInt ((x : ℚ) / (viewport_width : ℚ) * 100)
    let grid_y := pyInt ((y : ℚ) / (viewport_height : ℚ) * 100)
    .ok { x := max 0 (min 100 grid_x), y := max 0 (min 100 grid_y) }

lemma pyInt_of_nonneg {q : ℚ} (hq : 0 ≤ q) : pyInt q = ⌊q⌋ := by
  simp [pyInt, not_lt.mpr hq]

lemma pixel_to_grid_eval (x y w h : ℤ) (hw : w ≠ 0) (hh : h ≠ 0) :
    pixel_to_grid x y w h =
      .ok ⟨max 0 (min 100 (pyInt ((x : ℚ) / (w : ℚ) * 100))),
           max 0 (min 100 (pyInt ((y : ℚ) / (h : ℚ) * 100)))⟩ := by
  simp [pixel_to_grid, hw, hh]

lemma clamp_nonneg (t : ℤ) : 0 ≤ max 0 (min 100 t) := le_max_left _ _

lemma clamp_le_100 (t : ℤ) : max 0 (min 100 t) ≤ 100 :=
  max_le (by norm_num) (min_le_left _ _)

lemma pyInt_trunc_eq_floor (x w : ℤ) (hx : 0 ≤ x) (hw : 0 < w) :
    pyInt ((x : ℚ) / (w : ℚ) * 100) = ⌊(100 * (x : ℤ) : ℚ) / (w : ℤ)⌋ := by
  have hrw : (x : ℚ) / (w : ℚ) * 100 = (100 * (x : ℤ) : ℚ) / (w : ℤ) := by
    ring
  rw [hrw, pyInt_of_nonneg]
  apply div_nonneg
  · positivity
  · exact_mod_cast hw.le

/-- Claim C5 (confirmed): for any pixel point, if a viewport dimension is 0
the coordinate mapper `_pixel_to_grid` fails by raising a typed error
(Python `ZeroDivisionError` from the `x / viewport_width` division) instead
of silently returning a grid coordinate. -/
theorem pixel_to_grid_zero_viewport_fails (x y w h : ℤ) (h0 : w = 0 ∨ h = 0) :
    pixel_to_grid x y w h = .error PyError.zeroDivision := by
  rcases h0 with h0 | h0 <;> subst h0 <;> simp [pixel_to_grid]

/-- Witness for C5 at a concrete input: viewport width 0 raises. -/
theorem pixel_to_grid_zero_viewport_fails_witness :
    pixel_to_grid 5 7 0 600 = .error PyError.zeroDivision :=
  pixel_to_grid_zero_viewport_fails 5 7 0 600 (Or.inl rfl)

/-- Claim C1 counterexample: the pixel-to-grid mapping truncates instead of
rounding to nearest. At pixel `(2, 0)` in a `3 × 3` viewport the code yields
grid x-coordinate `66`, while the claimed
`clamp (round (100 * pixel / viewport_dimension))` yields `67`. -/
theorem pixel_to_grid_not_round :
    pixel_to_grid 2 0 3 3 = .ok ⟨66, 0⟩ ∧
    max 0 (min 100 (round ((100 * (2 : ℤ) : ℚ) / ((3 : ℤ) : ℚ)))) = (67 : ℤ) := by
  constructor
  · rw [pixel_to_grid_eval 2 0 3 3 (by norm_num) (by norm_num)]
    norm_num [pyInt_of_nonneg, Int.floor_eq_iff]
  · rw [round_eq]
    norm_num [Int.floor_eq_iff]

/-- Claim C1 (amended): per axis the mapping computes
`clamp (trunc (100 * pixel / viewport_dimension))` — truncation toward zero
(equivalently `floor` for non-negative pixels), not rounding to nearest.
Everything else in the claim holds: for every viewport with positive
dimensions the result is defined and clamped to `[0,100]` (also for negative
or beyond-viewport pixels, without wrapping or erroring), and
`pixelToGrid(0,0,w,h) = (0,0)`, `pixelToGrid(w,h,w,h) = (100,100)`, and
`pixelToGrid(w/2,h/2,w,h) = (50,50)`. -/
theorem pixel_to_grid_amended (x y w h : ℤ) (hw : 0 < w) (hh : 0 < h) :
    (∃ g : GridCoords, pixel_to_grid x y w h = .ok g ∧
      0 ≤ g.x ∧ g.x ≤ 100 ∧ 0 ≤ g.y ∧ g.y ≤ 100 ∧
      (0 ≤ x → g.x = max 0 (min 100 ⌊(100 * (x : ℤ) : ℚ) / ((w : ℤ) : ℚ)⌋)) ∧
      (0 ≤ y → g.y = max 0 (min 100 ⌊(100 * (y : ℤ) : ℚ) / ((h : ℤ) : ℚ)⌋))) ∧
    pixel_to_grid 0 0 w h = .ok ⟨0, 0⟩ ∧
    pixel_to_grid w h w h = .ok ⟨100, 100⟩ ∧
    (2 * x = w → 2 * y = h → pixel_to_grid x y w h = .ok ⟨50, 50⟩) := by
  have hw' : (w : ℚ) ≠ 0 := Int.cast_ne_zero.mpr hw.ne'
  have hh' : (h : ℚ) ≠ 0 := Int.cast_ne_zero.mpr hh.ne'
  refine ⟨⟨_, pixel_to_grid_eval x y w h hw.ne' hh.ne', ?_, ?_, ?_, ?_, ?_, ?_⟩,
    ?_, ?_, ?_⟩
  · exact clamp_nonneg _
  · exact clamp_le_100 _
  · exact clamp_nonneg _
  · exact clamp_le_100 _
  · intro hx
    rw [pyInt_trunc_eq_floor x w hx hw]
  · intro hy
    rw [pyInt_trunc_eq_floor y h hy hh]
  · rw [pixel_to_grid_eval 0 0 w h hw.ne' hh.ne']
    norm_num [pyInt]
  · rw [pixel_to_grid_eval w h w h hw.ne' hh.ne']
    rw [div_self hw', div_self hh']
    norm_num [pyInt_of_nonneg, Int.floor_eq_iff]
  · intro hxw hyh
    have hx : (0 : ℤ) < x := by omega
    have hy : (0 : ℤ) < y := by omega
    have hx' : (x : ℚ) ≠ 0 := Int.cast_ne_zero.mpr hx.ne'
    have hy' : (y : ℚ) ≠ 0 := Int.cast_ne_zero.mpr hy.ne'
    have hwq : (w : ℚ) = 2 * (x : ℚ) := by exact_mod_cast hxw.symm
    have hhq : (h : ℚ) = 2 * (y : ℚ) := by exact_mod_cast hyh.symm
    rw [pixel_to_grid_eval x y w h hw.ne' hh.ne', hwq, hhq]
    have ex : (x : ℚ) / (2 * (x : ℚ)) * 100 = 50 := by
      field_simp
      ring
    have ey : (y : ℚ) / (2 * (y : ℚ)) * 100 = 50 := by
      field_simp
      ring
    rw [ex, ey]
    norm_num [pyInt_of_nonneg, Int.floor_eq_iff]

/-- Witness for the amended C1 at pixel `(3, 4)` in a `6 × 8` viewport
(the midpoint of the viewport, so the `(50, 50)` case applies). -/
theorem pixel_to_grid_amended_witness :
    (∃ g : GridCoords, pixel_to_grid 3 4 6 8 = .ok g ∧
      0 ≤ g.x ∧ g.x ≤ 100 ∧ 0 ≤ g.y ∧ g.y ≤ 100 ∧
      (0 ≤ (3 : ℤ) →
        g.x = max 0 (min 100 ⌊(100 * (3 : ℤ) : ℚ) / ((6 : ℤ) : ℚ)⌋)) ∧
      (0 ≤ (4 : ℤ) →
        g.y = max 0 (min 100 ⌊(100 * (4 : ℤ) : ℚ) / ((8 : ℤ) : ℚ)⌋))) ∧
    pixel_to_grid 0 0 6 8 = .ok ⟨0, 0⟩ ∧
    pixel_to_grid 6 8 6 8 = .ok ⟨100, 100⟩ ∧
    (2 * (3 : ℤ) = 6 → 2 * (4 : ℤ) = 8 → pixel_to_grid 3 4 6 8 = .ok ⟨50, 50⟩) :=
  pixel_to_grid_amended 3 4 6 8 (by norm_num) (by norm_num)

/-- Boolean test that `needle` is a prefix of `hay` (over character lists). -/
def listStartsWith : List Char → List Char → Bool
  | _, [] => true
  | [], _ :: _ => false
  | c :: cs, d :: ds => c == d && listStartsWith cs ds

/-- Boolean substring containment over character lists, the semantics of
the Python `needle in hay` test on strings. -/
def listHasSub (needle : List Char) : List Char → Bool
  | [] => listStartsWith [] needle
  | c :: t => listStartsWith (c :: t) needle || listHasSub needle t

/-- Python `needle in hay` on strings. -/
def strHasSub (hay needle : String) : Bool := listHasSub needle.toList hay.toList

/-- Python `str.lower()`, modelled on the ASCII range (all keywords the
embedded code compares against are ASCII). -/
def pyLower (s : String) : String := ⟨s.toList.map Char.toLower⟩

/-- Embedding of `ElementDetector._extract_element_type`
(`services/element_detector.py`): case-insensitive keyword matching over the
caption with an if/elif chain, defaulting to `"text"`. -/
def extract_element_type (caption : String) : String :=
  let caption_lower := pyLower caption
  if ["button", "btn"].any (fun word => strHasSub caption_lower word) then
    "button"
  else if ["input", "field", "textbox"].any
      (fun word => strHasSub caption_lower word) then
    "input"
  else if ["icon", "symbol"].any (fun word => strHasSub caption_lower word) then
    "icon"
  else if ["search"].any (fun word => strHasSub caption_lower word) then
    "search"
  else if ["link", "hyperlink"].any
      (fun word => strHasSub caption_lower word) then
    "link"
  else if ["image", "img", "photo"].any
      (fun word => strHasSub caption_lower word) then
    "image"
  else
    "text"

/-- The classification table in the priority order stated by the spec:
button, input, icon, search, link, image. -/
def keyword_table : List (String × List String) :=
  [("button", ["button", "btn"]),
   ("input", ["input", "field", "textbox"]),
   ("icon", ["icon", "symbol"]),
   ("search", ["search"]),
   ("link", ["link", "hyperlink"]),
   ("image", ["image", "img", "photo"])]

/-- The classifier as described by the spec sentence: the first category of
`keyword_table` with a matching keyword wins; captions matching no category
are classified `"text"`. -/
def classifySpec (caption : String) : String :=
  match keyword_table.find?
      (fun p => p.2.any (fun word => strHasSub (pyLower caption) word)) with
  | some p => p.1
  | none => "text"

/-- Evaluation of an if/elif keyword chain over a classification table. -/
def chainFind (lc : String) : List (String × List String) → String
  | [] => "text"
  | p :: rest =>
    if p.2.any (fun word => strHasSub lc word) then p.1 else chainFind lc rest

lemma chainFind_eq_find? (lc : String) (table : List (String × List String)) :
    chainFind lc table =
      match table.find? (fun p => p.2.any (fun word => strHasSub lc word)) with
      | some p => p.1
      | none => "text" := by
  induction table with
  | nil => rfl
  | cons p rest ih =>
    by_cases h : (p.2.any (fun word => strHasSub lc word)) = true
    · simp [chainFind, List.find?_cons_of_pos, h]
    · rw [chainFind, if_neg h, List.find?_cons]
      rw [Bool.not_eq_true] at h
      simp only [h]
      exact ih

lemma chainFind_mem (lc : String) :
    ∀ table, chainFind lc table ∈ table.map Prod.fst ++ ["text"]
  | [] => by simp [chainFind]
  | p :: rest => by
    unfold chainFind
    split
    · simp
    · have h := chainFind_mem lc rest
      simp only [List.map_cons, List.cons_append, List.mem_cons]
      exact Or.inr (by simpa using h)

lemma extract_eq_chain (c : String) :
    extract_element_type c = chainFind (pyLower c) keyword_table := rfl

lemma extract_eq_classify (c : String) :
    extract_element_type c = classifySpec c := by
  rw [extract_eq_chain, classifySpec, chainFind_eq_find?]

lemma extract_mem_seven (c : String) :
    extract_element_type c ∈
      ["button", "input", "icon", "search", "link", "image", "text"] := by
  rw [extract_eq_chain]
  have h := chainFind_mem (pyLower c) keyword_table
  simpa [keyword_table] using h

/-- Claim C7 (confirmed): the element-type classifier is case-insensitive
keyword matching, the first matching category winning in the priority order
button, input, icon, search, link, image, with default `"text"`; it always
returns one of exactly these seven names. Case-insensitivity is expressed
as: the result depends on the caption only through its lowercasing. -/
theorem extract_element_type_correct :
    (∀ caption, extract_element_type caption = classifySpec caption) ∧
    (∀ caption, extract_element_type caption ∈
      ["button", "input", "icon", "search", "link", "image", "text"]) ∧
    (∀ c₁ c₂, pyLower c₁ = pyLower c₂ →
      extract_element_type c₁ = extract_element_type c₂) := by
  refine ⟨extract_eq_classify, extract_mem_seven, ?_⟩
  intro c₁ c₂ h
  simp only [extract_element_type]
  rw [h]

/-- Witness for C7 on concrete captions, including the case-insensitivity
hypothesis discharged at `"HYPERLINK"` versus `"hyperlink"`. -/
theorem extract_element_type_correct_witness :
    extract_element_type "Blue BUTTON" = classifySpec "Blue BUTTON" ∧
    extract_element_type "photo of a cat" ∈
      ["button", "input", "icon", "search", "link", "image", "text"] ∧
    extract_element_type "HYPERLINK" = extract_element_type "hyperlink" :=
  ⟨extract_element_type_correct.1 _, extract_element_type_correct.2.1 _,
   extract_element_type_correct.2.2 "HYPERLINK" "hyperlink" (by decide)⟩

/-- A decoded raster image; only its dimensions matter to the embedded code
(the caption stage ignores its argument entirely). -/
structure Image where
  width : ℤ
  height : ℤ
deriving DecidableEq, Repr

/-- PIL `image.crop((x1, y1, x2, y2))`, kept only for pipeline fidelity. -/
def Image.crop (_img : Image) (x1 y1 x2 y2 : ℤ) : Image := ⟨x2 - x1, y2 - y1⟩

/-- One raw YOLO detection as built by `ElementDetector._detect_ui_elements`:
an integer pixel bounding box plus a confidence score. -/
structure Detection where
  x1 : ℤ
  y1 : ℤ
  x2 : ℤ
  y2 : ℤ
  confidence : ℚ
deriving DecidableEq, Repr

/-- Mirror of the `BoundingBox` dataclass. -/
structure BoundingBox where
  x_min : ℤ
  y_min : ℤ
  x_max : ℤ
  y_max : ℤ
deriving DecidableEq, Repr

/-- Mirror of the `DetectedElement` dataclass. -/
structure DetectedElement where
  element_type : String
  caption : String
  bbox : BoundingBox
  grid_center : GridCoords
  confidence : ℚ
deriving DecidableEq, Repr

/-- Embedding of `ElementDetector._caption_element`: Florence captioning is
disabled in the source, which unconditionally returns the placeholder
string `"UI element"`. -/
def caption_element (_element_img : Image) : String := "UI element"

/-- Embedding of `ElementDetector._generate_captions`: for each detection,
crop, caption, classify, compute the integer center (`//` is Python floor
division, hence `Int.fdiv`) and convert it to grid coordinates. A raised
`ZeroDivisionError` aborts the loop; since the caller turns any error into
an empty list, binding the recursive call after the grid conversion is
observationally faithful to the Python loop. -/
def generate_captions (image : Image) (viewport_width viewport_height : ℤ) :
    List Detection → Except PyError (List DetectedElement)
  | [] => .ok []
  | detection :: rest => do
    let element_img := image.crop detection.x1 detection.y1 detection.x2
      detection.y2
    let caption := caption_element element_img
    let element_type := extract_element_type caption
    let center_x := Int.fdiv (detection.x1 + detection.x2) 2
    let center_y := Int.fdiv (detection.y1 + detection.y2) 2
    let grid_coords ← pixel_to_grid center_x center_y viewport_width
      viewport_height
    let elements ← generate_captions image viewport_width viewport_height rest
    pure ({ element_type := element_type, caption := caption,
            bbox := ⟨detection.x1, detection.y1, detection.x2, detection.y2⟩,
            grid_center := grid_coords,
            confidence := detection.confidence } :: elements)

/-- The fallible stages of `ElementDetector.detect_elements` that depend on
the filesystem and the models, taken as explicit parameters: lazy model
loading, base64 decoding, and YOLO inference. -/
structure Pipeline where
  load_models : Except PyError Unit
  decode_base64_image : String → Except PyError Image
  detect_ui_elements : Image → Except PyError (List Detection)

/-- The body of the `try:` block of `ElementDetector.detect_elements`. -/
def detect_pipeline (p : Pipeline) (screenshot_base64 : String)
    (viewport_width viewport_height : ℤ) :
    Except PyError (List DetectedElement) := do
  let _ ← p.load_models
  let image ← p.decode_base64_image screenshot_base64
  let detections ← p.detect_ui_elements image
  generate_captions image viewport_width viewport_height detections

/-- Embedding of `ElementDetector.detect_elements`: any exception raised by
the pipeline is caught and converted into the empty list. -/
def detect_elements (p : Pipeline) (screenshot_base64 : String)
    (viewport_width viewport_height : ℤ) : List DetectedElement :=
  match detect_pipeline p screenshot_base64 viewport_width viewport_height with
  | .ok elements => elements
  | .error _ => []

/-- Embedding of the module-level `detect_elements_from_screenshot`: it
calls `ElementDetector.detect_elements` on the singleton instance inside a
second `try:` whose body (in the pure model) never raises. -/
def detect_elements_from_screenshot (p : Pipeline) (screenshot_base64 : String)
    (viewport_width viewport_height : ℤ) : List DetectedElement :=
  detect_elements p screenshot_base64 viewport_width viewport_height

lemma exBind_ok {α β : Type} (a : α) (f : α → Except PyError β) :
    (Except.ok a >>= f) = f a := rfl

lemma exBind_err {α β : Type} (e : PyError) (f : α → Except PyError β) :
    ((Except.error e : Except PyError α) >>= f) = Except.error e := rfl

lemma detect_elements_of_ok {p s vw vh es}
    (h : detect_pipeline p s vw vh = .ok es) :
    detect_elements p s vw vh = es := by
  simp [detect_elements, h]

lemma detect_elements_of_err {p s vw vh e}
    (h : detect_pipeline p s vw vh = .error e) :
    detect_elements p s vw vh = [] := by
  simp [detect_elements, h]

/-- Claim C4 (confirmed): the public element-detection operation is total
(the model is a plain function into lists, never an exception), a failure of
any stage — model loading, base64 decoding (invalid, empty, or corrupt
input), inference, or grid conversion — yields the empty list, the
module-level wrapper agrees with the method, and the result is always
either the empty list or the successful pipeline output. -/
theorem detect_elements_degrades (p : Pipeline) (s : String) (vw vh : ℤ) :
    (∀ e, p.load_models = .error e → detect_elements p s vw vh = []) ∧
    (∀ e, p.load_models = .ok () → p.decode_base64_image s = .error e →
      detect_elements p s vw vh = []) ∧
    (∀ img e, p.load_models = .ok () → p.decode_base64_image s = .ok img →
      p.detect_ui_elements img = .error e → detect_elements p s vw vh = []) ∧
    (∀ img dets e, p.load_models = .ok () →
      p.decode_base64_image s = .ok img → p.detect_ui_elements img = .ok dets →
      generate_captions img vw vh dets = .error e →
      detect_elements p s vw vh = []) ∧
    detect_elements_from_screenshot p s vw vh = detect_elements p s vw vh ∧
    (detect_elements p s vw vh = [] ∨
      ∃ img dets es, p.decode_base64_image s = .ok img ∧
        p.detect_ui_elements img = .ok dets ∧
        generate_captions img vw vh dets = .ok es ∧
        detect_elements p s vw vh = es) := by
  refine ⟨?_, ?_, ?_, ?_, rfl, ?_⟩
  · intro e he
    exact detect_elements_of_err (by rw [detect_pipeline, he, exBind_err])
  · intro e hl hd
    exact detect_elements_of_err
      (by rw [detect_pipeline, hl, exBind_ok, hd, exBind_err])
  · intro img e hl hd hdet
    exact detect_elements_of_err
      (by rw [detect_pipeline, hl, exBind_ok, hd, exBind_ok, hdet, exBind_err])
  · intro img dets e hl hd hdet hg
    exact detect_elements_of_err
      (by rw [detect_pipeline, hl, exBind_ok, hd, exBind_ok, hdet, exBind_ok,
              hg])
  · rcases hl : p.load_models with e | u
    · exact Or.inl (detect_elements_of_err
        (by rw [detect_pipeline, hl, exBind_err]))
    · cases u
      rcases hd : p.decode_base64_image s with e | img
      · exact Or.inl (detect_elements_of_err
          (by rw [detect_pipeline, hl, exBind_ok, hd, exBind_err]))
      · rcases hdet : p.detect_ui_elements img with e | dets
        · exact Or.inl (detect_elements_of_err
            (by rw [detect_pipeline, hl, exBind_ok, hd, exBind_ok, hdet,
                    exBind_err]))
        · rcases hg : generate_captions img vw vh dets with e | es
          · exact Or.inl (detect_elements_of_err
              (by rw [detect_pipeline, hl, exBind_ok, hd, exBind_ok, hdet,
                      exBind_ok, hg]))
          · refine Or.inr ⟨img, dets, es, ?_, ?_, ?_, ?_⟩
            · rfl
            · exact hdet
            · exact hg
            exact detect_elements_of_ok
              (by rw [detect_pipeline, hl, exBind_ok, hd, exBind_ok, hdet,
                      exBind_ok, hg])

/-- A pipeline whose base64 decoding stage fails, as it does on an invalid
base64 string, the empty string, or a corrupt image. -/
def failing_pipeline : Pipeline where
  load_models := .ok ()
  decode_base64_image := fun _ => .error (.exn "Invalid base64-encoded string")
  detect_ui_elements := fun _ => .ok []

/-- Witness for C4: detection on the empty screenshot string with a failing
decode stage returns the empty list. -/
theorem detect_elements_degrades_witness :
    detect_elements failing_pipeline "" 1280 800 = [] :=
  (detect_elements_degrades failing_pipeline "" 1280 800).2.1
    (.exn "Invalid base64-encoded string") rfl rfl

lemma ui_element_is_text : extract_element_type "UI element" = "text" := by
  decide

lemma generate_captions_mem (image : Image) (vw vh : ℤ) :
    ∀ dets es, generate_captions image vw vh dets = .ok es →
      ∀ e ∈ es, e.caption = "UI element" ∧ e.element_type = "text" := by
  intro dets
  induction dets with
  | nil =>
    intro es h e he
    rw [generate_captions] at h
    cases h
    cases he
  | cons d rest ih =>
    intro es h e he
    rw [generate_captions] at h
    rcases hg : pixel_to_grid (Int.fdiv (d.x1 + d.x2) 2)
        (Int.fdiv (d.y1 + d.y2) 2) vw vh with e' | g <;>
      rw [hg] at h
    · rw [exBind_err] at h
      cases h
    · rw [exBind_ok] at h
      rcases hr : generate_captions image vw vh rest with e' | es' <;>
        rw [hr] at h
      · rw [exBind_err] at h
        cases h
      · rw [exBind_ok] at h
        cases h
        rcases List.mem_cons.mp he with rfl | hmem
        · exact ⟨rfl, ui_element_is_text⟩
        · exact ih es' hr e hmem

/-- Claim C10 (confirmed): every element that the detection operation
returns carries the placeholder caption `"UI element"` (the captioning stage
is unconditionally stubbed), and since the placeholder matches no
classification keyword its element type is `"text"`. -/
theorem detect_elements_placeholder (p : Pipeline) (s : String) (vw vh : ℤ) :
    ∀ e ∈ detect_elements p s vw vh,
      e.caption = "UI element" ∧ e.element_type = "text" := by
  intro e he
  rcases hres : detect_pipeline p s vw vh with e' | es
  · rw [detect_elements_of_err hres] at he
    cases he
  · rw [detect_elements_of_ok hres] at he
    rw [detect_pipeline] at hres
    rcases hl : p.load_models with e' | u <;> rw [hl] at hres
    · rw [exBind_err] at hres
      cases hres
    · cases u
      rw [exBind_ok] at hres
      rcases hd : p.decode_base64_image s with e' | img <;> rw [hd] at hres
      · rw [exBind_err] at hres
        cases hres
      · rw [exBind_ok] at hres
        rcases hdet : p.detect_ui_elements img with e' | dets <;>
          rw [hdet] at hres
        · rw [exBind_err] at hres
          cases hres
        · rw [exBind_ok] at hres
          exact generate_captions_mem img vw vh dets es hres e he

/-- A pipeline whose detection stage reports one raw bounding box, used to
exercise the non-degenerate path of the detector. -/
def stub_pipeline : Pipeline where
  load_models := .ok ()
  decode_base64_image := fun _ => .ok ⟨100, 100⟩
  detect_ui_elements := fun _ => .ok [⟨10, 10, 30, 20, 9/10⟩]

/-- Witness for C10: the single element detected by `stub_pipeline` carries
the placeholder caption and type `"text"`. -/
theorem detect_elements_placeholder_witness :
    (⟨"text", "UI element", ⟨10, 10, 30, 20⟩, ⟨20, 15⟩, 9/10⟩ :
        DetectedElement).caption = "UI element" ∧
    (⟨"text", "UI element", ⟨10, 10, 30, 20⟩, ⟨20, 15⟩, 9/10⟩ :
        DetectedElement).element_type = "text" := by
  have hgrid : pixel_to_grid 20 15 100 100 = .ok ⟨20, 15⟩ := by
    rw [pixel_to_grid_eval 20 15 100 100 (by norm_num) (by norm_num)]
    norm_num [pyInt_of_nonneg, Int.floor_eq_iff]
  have hgen : generate_captions ⟨100, 100⟩ 100 100 [⟨10, 10, 30, 20, 9/10⟩] =
      .ok [⟨"text", "UI element", ⟨10, 10, 30, 20⟩, ⟨20, 15⟩, 9/10⟩] := by
    rw [generate_captions]
    have hx : Int.fdiv ((10 : ℤ) + 30) 2 = 20 := by decide
    have hy : Int.fdiv ((10 : ℤ) + 20) 2 = 15 := by decide
    simp only [hx, hy, hgrid, exBind_ok, generate_captions, ui_element_is_text]
    rfl
  have hpipe : detect_pipeline stub_pipeline "shot" 100 100 =
      .ok [⟨"text", "UI element", ⟨10, 10, 30, 20⟩, ⟨20, 15⟩, 9/10⟩] := by
    rw [show detect_pipeline stub_pipeline "shot" 100 100 =
        generate_captions ⟨100, 100⟩ 100 100 [⟨10, 10, 30, 20, 9/10⟩] from rfl]
    exact hgen
  exact detect_elements_placeholder stub_pipeline "shot" 100 100 _
    (by rw [detect_elements_of_ok hpipe]; exact List.mem_singleton.mpr rfl)

/-- Helper for `pyTitle`: the flag records whether the previous character
was alphabetic (then the current letter is lowercased, otherwise it starts
a word and is uppercased). -/
def pyTitleAux : List Char → Bool → List Char
  | [], _ => []
  | c :: t, prevAlpha =>
    (if prevAlpha then c.toLower else c.toUpper) :: pyTitleAux t c.isAlpha

/-- Python `str.title()` (modelled on the ASCII range): uppercase the first
letter of every word, lowercase the remaining letters. -/
def pyTitle (s : String) : String := ⟨pyTitleAux s.toList false⟩

/-- The body of the loop of `format_elements_for_prompt`
(`services/element_detector.py`): the Python f-string
`- [{i}] {type.title()} "{caption}" at grid ({x}, {y})`, built with
`enumerate(elements, 1)`. -/
def format_lines : ℕ → List DetectedElement → List String
  | _, [] => []
  | i, elem :: rest =>
    ("- [" ++ toString i ++ "] " ++ pyTitle elem.element_type ++ " \"" ++
        elem.caption ++ "\" at grid (" ++ toString elem.grid_center.x ++
        ", " ++ toString elem.grid_center.y ++ ")") ::
      format_lines (i + 1) rest

/-- Embedding of `format_elements_for_prompt`: the empty list renders as the
empty string; otherwise a header line is followed by one line per element,
joined with newlines. -/
def format_elements_for_prompt (elements : List DetectedElement) : String :=
  if elements.isEmpty then ""
  else String.intercalate "\n" ("Detected UI Elements:" :: format_lines 1 elements)

/-- The line format as the spec describes it, for a 1-based index `i`. -/
def render_line (i : ℕ) (e : DetectedElement) : String :=
  "- [" ++ toString i ++ "] " ++ pyTitle e.element_type ++ " \"" ++
    e.caption ++ "\" at grid (" ++ toString e.grid_center.x ++ ", " ++
    toString e.grid_center.y ++ ")"

/-- Embedding of the prompt assembly in `model_node`
(`nodes/model_node.py`): the elements context is empty when no elements are
detected, otherwise two newlines followed by the rendered element list. -/
def build_model_prompt (base_prompt : String)
    (detected_elements : List DetectedElement) : String :=
  let elements_context :=
    if detected_elements.isEmpty then ""
    else "\n\n" ++ format_elements_for_prompt detected_elements
  base_prompt ++ elements_context

lemma format_lines_eq_enumFrom (l : List DetectedElement) :
    ∀ k, format_lines k l =
      (List.enumFrom k l).map (fun p => render_line p.1 p.2) := by
  induction l with
  | nil => intro k; rfl
  | cons e rest ih =>
    intro k
    simp only [format_lines, List.enumFrom, List.map_cons, ih (k + 1)]
    rfl

/-- Claim C8 (confirmed): the textual rendering used by the Decision Step
yields, for a non-empty list, the header followed by one line per element
with a 1-based index, title-cased type, quoted caption and grid
coordinates; the example from the spec renders exactly as stated; the empty
list renders as the empty string, and the Decision Step then appends no
additional text to the base prompt. -/
theorem format_elements_for_prompt_spec :
    format_elements_for_prompt [] = "" ∧
    (∀ e es, format_elements_for_prompt (e :: es) =
      String.intercalate "\n" ("Detected UI Elements:" ::
        (List.enumFrom 1 (e :: es)).map (fun p => render_line p.1 p.2))) ∧
    format_elements_for_prompt
        [{ element_type := "button", caption := "Send",
           bbox := ⟨850, 900, 870, 920⟩, grid_center := ⟨95, 92⟩,
           confidence := 9/10 }] =
      "Detected UI Elements:\n- [1] Button \"Send\" at grid (95, 92)" ∧
    ∀ base_prompt, build_model_prompt base_prompt [] = base_prompt := by
  refine ⟨rfl, ?_, ?_, ?_⟩
  · intro e es
    rw [format_elements_for_prompt]
    rw [if_neg (by simp)]
    rw [format_lines_eq_enumFrom]
  · decide
  · intro base_prompt
    simp [build_model_prompt]

/-- The skills directory as seen by `skill_tools.py` / `prompt_loader.py`:
its display path and its regular files as name/content pairs. -/
structure SkillsDir where
  path : String
  files : List (String × String)

/-- Embedding of `list_skills` (`shared/prompt_loader.py`): the names of the
files matching the glob `*.skill.prompt.md`, with every occurrence of the
`.skill.prompt.md` suffix removed (Python `str.replace` replaces all
occurrences); all modelled entries are regular files. -/
def list_skills (dir : SkillsDir) : List String :=
  ((dir.files.map Prod.fst).filter
      (fun name => name.endsWith ".skill.prompt.md")).map
    (fun name => name.replace ".skill.prompt.md" "")

/-- Embedding of `load_prompt` (`shared/prompt_loader.py`), with the
in-memory cache elided (it only memoizes successful loads, so the pure
behaviour is unchanged) and unreadable files folded into absence: a missing
file or a whitespace-only content raises `PromptLoadError`, modelled as
`Except.error` carrying the message. -/
def load_prompt (dir : SkillsDir) (file_name : String) : Except String String :=
  match dir.files.lookup file_name with
  | none => .error ("Prompt file not found: " ++ file_name)
  | some content =>
    if content.trim = "" then .error ("Prompt file is empty: " ++ file_name)
    else .ok content

/-- Embedding of `load_skill` (`tools/skill_tools.py`): load the file
`<skill_name>.skill.prompt.md`; on `PromptLoadError`, return (not raise) an
error text enumerating the available skills, sorted (Python
`", ".join(sorted(available))`, modelled with `List.insertionSort`), or the
literal `none` when no skills exist. -/
def load_skill (dir : SkillsDir) (skill_name : String) : String :=
  match load_prompt dir (skill_name ++ ".skill.prompt.md") with
  | .ok content => content
  | .error _ =>
    let available := list_skills dir
    let available_str :=
      if available.isEmpty then "none"
      else String.intercalate ", " (List.insertionSort (· ≤ ·) available)
    "Error: Skill '" ++ skill_name ++ "' not found.\n\nAvailable skills: " ++
      available_str ++ "\n\nSkills are located in: " ++ dir.path

lemma lookup_eq_none_of_not_mem {key : String} :
    ∀ files : List (String × String), key ∉ files.map Prod.fst →
      files.lookup key = none
  | [], _ => rfl
  | (k, v) :: rest, h => by
    simp only [List.map_cons, List.mem_cons] at h
    push_neg at h
    have hk : (key == k) = false := beq_eq_false_iff_ne.mpr h.1
    simp only [List.lookup, hk]
    exact lookup_eq_none_of_not_mem rest h.2

lemma sort_isEmpty (l : List String) :
    (List.insertionSort (· ≤ ·) l).isEmpty = l.isEmpty := by
  cases l with
  | nil => rfl
  | cons a t =>
    have hlen :=
      (List.perm_insertionSort ((· ≤ ·) : String → String → Prop)
        (a :: t)).length_eq
    cases hs : List.insertionSort (· ≤ ·) (a :: t) with
    | nil => rw [hs] at hlen; simp at hlen
    | cons b u => rfl

/-- Claim C9 (confirmed): requesting a skill name for which no skill file
exists returns a textual outcome (the function is total, hence never
raises) that enumerates the currently available skill names sorted in
ascending order. -/
theorem load_skill_unknown (dir : SkillsDir) (name : String)
    (h : (name ++ ".skill.prompt.md") ∉ dir.files.map Prod.fst) :
    ∃ avail : List String, avail.Perm (list_skills dir) ∧
      avail.Sorted (· ≤ ·) ∧
      load_skill dir name =
        "Error: Skill '" ++ name ++ "' not found.\n\nAvailable skills: " ++
          (if avail.isEmpty then "none"
           else String.intercalate ", " avail) ++
          "\n\nSkills are located in: " ++ dir.path := by
  refine ⟨List.insertionSort (· ≤ ·) (list_skills dir),
    List.perm_insertionSort _ _, List.sorted_insertionSort _ _, ?_⟩
  have hlk : dir.files.lookup (name ++ ".skill.prompt.md") = none :=
    lookup_eq_none_of_not_mem dir.files h
  simp only [load_skill, load_prompt, hlk, sort_isEmpty]

/-- A concrete skills directory with two skills. -/
def demo_skills : SkillsDir where
  path := "agents/browser_agent/prompts/skills"
  files := [("whatsapp-web.skill.prompt.md", "WhatsApp Web skill text"),
            ("linkedin-automation.skill.prompt.md", "LinkedIn skill text")]

/-- Witness for C9: the unknown skill name `gmail` against `demo_skills`. -/
theorem load_skill_unknown_witness :
    ∃ avail : List String, avail.Perm (list_skills demo_skills) ∧
      avail.Sorted (· ≤ ·) ∧
      load_skill demo_skills "gmail" =
        "Error: Skill '" ++ "gmail" ++ "' not found.\n\nAvailable skills: " ++
          (if avail.isEmpty then "none"
           else String.intercalate ", " avail) ++
          "\n\nSkills are located in: " ++ demo_skills.path :=
  load_skill_unknown demo_skills "gmail" (by decide)

/-- Mirror of the `Viewport` dataclass (`state.py`). -/
structure Viewport where
  width : ℤ
  height : ℤ
deriving DecidableEq, Repr

/-- A JSON-like tool-argument value (`dict[str, int | str | float]`). -/
inductive ArgValue where
  | intV (i : ℤ)
  | strV (s : String)
  | floatV (q : ℚ)
deriving DecidableEq, Repr

/-- A tool-argument mapping. -/
abbrev Args := List (String × ArgValue)

/-- A LangChain tool call: name, arguments and call id. -/
structure ToolCall where
  name : String
  args : Args
  id : String
deriving DecidableEq, Repr

/-- The three LangChain message kinds the tool node distinguishes
(`HumanMessage`, `AIMessage` with its `tool_calls` list, `ToolMessage`). -/
inductive Message where
  | user (content : String)
  | ai (content : String) (tool_calls : List ToolCall)
  | tool (content : String) (tool_call_id : String)
deriving DecidableEq, Repr

/-- The `isinstance(last_message, AIMessage)` test. -/
def Message.isAI : Message → Bool
  | .ai _ _ => true
  | _ => false

/-- Mirror of the `AgentState` dataclass (`state.py`). -/
structure AgentState where
  messages : List Message
  current_screenshot : Option String
  viewport : Option Viewport
  detected_elements : List DetectedElement
deriving DecidableEq, Repr

/-- The partial-update dictionary a node returns; an absent key is `none`
(`{}` is the empty update), and `messages` is the list to append. -/
structure StateUpdate where
  messages : List Message := []
  current_screenshot : Option String := none
  detected_elements : Option (List DetectedElement) := none
  viewport : Option Viewport := none
deriving DecidableEq, Repr

/-- Mirror of the `BrowserToolCall` dataclass: the suspend payload sent to
the client. -/
structure BrowserToolCall where
  action : String
  args : Args
  request_screenshot : Bool := true
deriving DecidableEq, Repr

/-- Mirror of the `BrowserToolResult` dataclass: the resume payload from
the client. -/
structure BrowserToolResult where
  result : String
  screenshot : Option String := none
  viewport : Option Viewport := none
deriving DecidableEq, Repr

/-- The in-process tool implementations that
`_execute_server_side_tool` dispatches to via LangChain `.invoke(args)`
(`load_skill` and `collect_data`), taken as parameters. -/
structure ServerEnv where
  invoke_load_skill : Args → String
  invoke_collect_data : Args → String

/-- Outcome of one run of the tool node: either an immediate (synchronous)
state update, or a suspension carrying the interrupt payload and the
continuation applied to the client resume value. -/
inductive NodeResult where
  | done (update : StateUpdate)
  | suspended (payload : BrowserToolCall)
      (resume : BrowserToolResult → StateUpdate)

/-- Embedding of `_execute_server_side_tool` (`nodes/tool_node.py`):
dispatch on the tool name, falling back to the
`Unknown server-side tool:` text, and wrap the result in a `ToolMessage`. -/
def execute_server_side_tool (env : ServerEnv) (tool_call : ToolCall) :
    StateUpdate :=
  let result :=
    if tool_call.name = "load_skill" then env.invoke_load_skill tool_call.args
    else if tool_call.name = "collect_data" then
      env.invoke_collect_data tool_call.args
    else "Unknown server-side tool: " ++ tool_call.name
  { messages := [Message.tool result tool_call.id] }

/-- Embedding of the post-`interrupt` half of `_execute_client_side_tool`:
fold the client resume value into a state update — always a `ToolMessage`
with the result text; additionally the new screenshot plus cleared
`detected_elements` when a screenshot is carried, and the new viewport when
one is carried. -/
def client_resume_update (tool_call : ToolCall) (result : BrowserToolResult) :
    StateUpdate :=
  let updates : StateUpdate :=
    { messages := [Message.tool result.result tool_call.id] }
  let updates :=
    match result.screenshot with
    | some s =>
      { updates with current_screenshot := some s, detected_elements := some [] }
    | none => updates
  match result.viewport with
  | some v => { updates with viewport := some v }
  | none => updates

/-- Embedding of the pre-`interrupt` half of `_execute_client_side_tool`:
build the interrupt payload (`request_screenshot` always `true`) and
suspend, resuming through `client_resume_update`. -/
def execute_client_side_tool (tool_call : ToolCall) : NodeResult :=
  .suspended
    { action := tool_call.name, args := tool_call.args,
      request_screenshot := true }
    (client_resume_update tool_call)

/-- Embedding of `tool_node` (`nodes/tool_node.py`): empty conversation,
non-`AIMessage` last message, or empty `tool_calls` yield the empty update;
the first tool call is dispatched server-side when its name is in
`SERVER_SIDE_TOOLS = {load_skill, collect_data}` and client-side (via
interrupt) otherwise. -/
def tool_node (env : ServerEnv) (state : AgentState) : NodeResult :=
  match state.messages.getLast? with
  | none => .done {}
  | some last_message =>
    match last_message with
    | .ai _ tool_calls =>
      match tool_calls with
      | [] => .done {}
      | tool_call :: _ =>
        if tool_call.name = "load_skill" ∨ tool_call.name = "collect_data" then
          .done (execute_server_side_tool env tool_call)
        else
          execute_client_side_tool tool_call
    | _ => .done {}

/-- Modelled from the spec: the Control Loop wiring (the graph assembly in
`agents/browser_agent/agent.py` is not among the sources; §4.6 of the spec
specifies `PERCEIVE → DECIDE → EXECUTE → (loop | TERMINATE)`, terminating
when the Decision Step returns a proposal with no tool requests and
returning that proposal's text). The decision and execution capabilities
are parameters; fuel bounds the iteration count. -/
def control_loop (perceive : AgentState → List DetectedElement)
    (decide_step : AgentState → String × List ToolCall)
    (execute : AgentState → AgentState) : ℕ → AgentState → Option String
  | 0, _ => none
  | fuel + 1, st =>
    let st1 : AgentState := { st with detected_elements := perceive st }
    let proposal := decide_step st1
    let st2 : AgentState :=
      { st1 with
        messages := st1.messages ++ [Message.ai proposal.1 proposal.2] }
    if proposal.2.isEmpty then some proposal.1
    else control_loop perceive decide_step execute fuel (execute st2)

/-- Claim C2 (confirmed): when the last message is an agent proposal whose
first tool request is named `load_skill` or `collect_data`, the tool node
resolves it synchronously (an immediate update, never a suspension); for
every other name it suspends with exactly the payload
`{action: name, args: args, request_screenshot: true}`. -/
theorem tool_node_dispatch (env : ServerEnv) (ms : List Message)
    (content : String) (tc : ToolCall) (rest : List ToolCall)
    (st : AgentState)
    (hst : st.messages = ms ++ [Message.ai content (tc :: rest)]) :
    ((tc.name = "load_skill" ∨ tc.name = "collect_data") →
      tool_node env st = .done (execute_server_side_tool env tc)) ∧
    (tc.name ≠ "load_skill" → tc.name ≠ "collect_data" →
      tool_node env st =
        .suspended
          { action := tc.name, args := tc.args, request_screenshot := true }
          (client_resume_update tc)) := by
  have hlast : st.messages.getLast? =
      some (Message.ai content (tc :: rest)) := by
    rw [hst]
    exact List.getLast?_concat _
  constructor
  · intro hname
    simp [tool_node, hlast, hname]
  · intro h1 h2
    simp [tool_node, hlast, h1, h2, execute_client_side_tool]

/-- Server-side tool implementations used by concrete witnesses. -/
def demo_env : ServerEnv where
  invoke_load_skill := fun _ => "WhatsApp Web skill text"
  invoke_collect_data := fun _ => "Collected 0 items"

/-- A remote (client-side) tool call. -/
def click_call : ToolCall where
  name := "click"
  args := [("x", .intV 50), ("y", .intV 50)]
  id := "call_1"

/-- A server-side tool call. -/
def load_skill_call : ToolCall where
  name := "load_skill"
  args := [("skill_name", .strV "whatsapp-web")]
  id := "call_0"

/-- Witness for C2: `load_skill` resolves synchronously while `click`
suspends with the exact interrupt payload. -/
theorem tool_node_dispatch_witness :
    tool_node demo_env
        { messages := [Message.ai "" [load_skill_call]],
          current_screenshot := none, viewport := none,
          detected_elements := [] } =
      .done (execute_server_side_tool demo_env load_skill_call) ∧
    tool_node demo_env
        { messages := [Message.ai "" [click_call]],
          current_screenshot := none, viewport := none,
          detected_elements := [] } =
      .suspended
        { action := "click", args := [("x", .intV 50), ("y", .intV 50)],
          request_screenshot := true }
        (client_resume_update click_call) := by
  constructor
  · exact (tool_node_dispatch demo_env [] "" load_skill_call [] _ rfl).1
      (Or.inl rfl)
  · exact (tool_node_dispatch demo_env [] "" click_call [] _ rfl).2
      (by decide) (by decide)

/-- Claim C3 (confirmed): folding a resume outcome into the state always
appends a `ToolMessage` carrying the outcome's result string; when the
outcome carries a screenshot the update sets `current_screenshot` to it and
`detected_elements` to the empty list; when it carries a viewport the
update replaces `viewport`. -/
theorem client_resume_update_spec (tool_call : ToolCall)
    (result : BrowserToolResult) :
    (client_resume_update tool_call result).messages =
      [Message.tool result.result tool_call.id] ∧
    (∀ s, result.screenshot = some s →
      (client_resume_update tool_call result).current_screenshot = some s ∧
      (client_resume_update tool_call result).detected_elements = some []) ∧
    (∀ v, result.viewport = some v →
      (client_resume_update tool_call result).viewport = some v) := by
  rcases hs : result.screenshot with _ | s <;>
    rcases hv : result.viewport with _ | v <;>
      simp [client_resume_update, hs, hv]

/-- A concrete resume outcome carrying a screenshot and a viewport. -/
def click_result : BrowserToolResult where
  result := "Clicked at (50, 50)"
  screenshot := some "data:image/png;base64,YWJj"
  viewport := some ⟨1280, 800⟩

/-- Witness for C3 on `click_result`. -/
theorem client_resume_update_spec_witness :
    (client_resume_update click_call click_result).messages =
      [Message.tool "Clicked at (50, 50)" "call_1"] ∧
    (client_resume_update click_call click_result).current_screenshot =
      some "data:image/png;base64,YWJj" ∧
    (client_resume_update click_call click_result).detected_elements =
      some [] ∧
    (client_resume_update click_call click_result).viewport =
      some ⟨1280, 800⟩ := by
  have h := client_resume_update_spec click_call click_result
  exact ⟨h.1, (h.2.1 _ rfl).1, (h.2.1 _ rfl).2, h.2.2 _ rfl⟩

/-- Claim C6 (confirmed): with an empty conversation, a non-proposal last
message, or a last proposal carrying no tool requests, the tool node
returns the empty update; and a decision with no tool requests is exactly
the point where the (spec-modelled) Control Loop stops, returning the
proposal text — the state it stops in is one on which the tool node is a
no-op. -/
theorem tool_node_noop_termination (env : ServerEnv) (st : AgentState) :
    (st.messages = [] → tool_node env st = .done {}) ∧
    (∀ ms m, st.messages = ms ++ [m] → m.isAI = false →
      tool_node env st = .done {}) ∧
    (∀ ms content, st.messages = ms ++ [Message.ai content []] →
      tool_node env st = .done {}) ∧
    (∀ (perceive : AgentState → List DetectedElement)
        (decide_step : AgentState → String × List ToolCall)
        (execute : AgentState → AgentState) (fuel : ℕ),
      (decide_step { st with detected_elements := perceive st }).2 = [] →
      control_loop perceive decide_step execute (fuel + 1) st =
        some (decide_step { st with detected_elements := perceive st }).1 ∧
      tool_node env
          { st with
            detected_elements := perceive st,
            messages := st.messages ++
              [Message.ai
                (decide_step { st with detected_elements := perceive st }).1
                (decide_step { st with
                  detected_elements := perceive st }).2] } =
        .done {}) := by
  refine ⟨?_, ?_, ?_, ?_⟩
  · intro h
    simp [tool_node, h]
  · intro ms m hst hm
    have hlast : st.messages.getLast? = some m := by
      rw [hst]
      exact List.getLast?_concat _
    cases m with
    | ai c calls => simp [Message.isAI] at hm
    | user c => simp [tool_node, hlast]
    | tool c i => simp [tool_node, hlast]
  · intro ms content hst
    have hlast : st.messages.getLast? = some (Message.ai content []) := by
      rw [hst]
      exact List.getLast?_concat _
    simp [tool_node, hlast]
  · intro perceive decide_step execute fuel h
    constructor
    · simp [control_loop, h]
    · rw [h]
      simp [tool_node, List.getLast?_concat]

/-- The caller-supplied initial state with an empty conversation. -/
def idle_state : AgentState where
  messages := []
  current_screenshot := none
  viewport := none
  detected_elements := []

/-- Witness for C6: the tool node is a no-op on the empty conversation, and
a control loop whose decision proposes no tool calls terminates at once
with the proposal text. -/
theorem tool_node_noop_termination_witness :
    tool_node demo_env idle_state = .done {} ∧
    control_loop (fun _ => []) (fun _ => ("All done.", []))
        (fun s => s) 1 idle_state = some "All done." := by
  have h := tool_node_noop_termination demo_env idle_state
  exact ⟨h.1 rfl,
    (h.2.2.2 (fun _ => []) (fun _ => ("All done.", [])) (fun s => s) 0 rfl).1⟩

end Anna
